import Mathlib

/-!
Shallow embedding of the Ultimate Reaction Driver game core
(`src/game.js`): player progression (`PlayerProgress`), the game-session
state machine and per-tick update of `GameEngine`, leaderboards, and the
multiplayer position-sync layer.  JavaScript numbers are modelled as `ℚ`
(all the arithmetic the claims touch is exact on dyadic rationals);
`Math.floor` is `Int.floor`; timestamps (`Date.now()`) are `ℤ`
milliseconds; JS objects used as string-keyed maps are association
lists.
-/

namespace URD

/-- A JavaScript numeric value as stored in the `skills` object: either a
real number or `NaN` (which arises from incrementing `undefined`). -/
inductive JSNum where
  | nan : JSNum
  | num (q : ℚ) : JSNum
deriving DecidableEq

/-- A JS object with numeric fields, as an association list in property
insertion order (`this.skills`). `none` models an absent property
(`undefined`). -/
abbrev SkillObj := List (String × JSNum)

/-- Property read `obj[name]`: `none` when the property is absent. -/
def skillGet (skills : SkillObj) (name : String) : Option JSNum :=
  (skills.find? (fun p => p.1 == name)).map (fun p => p.2)

/-- Property write `obj[name] = v`: overwrites in place when present,
otherwise appends a new property (JS insertion-order semantics). -/
def skillSet (skills : SkillObj) (name : String) (v : JSNum) : SkillObj :=
  if (skills.find? (fun p => p.1 == name)).isSome then
    skills.map (fun p => if p.1 == name then (p.1, v) else p)
  else
    skills ++ [(name, v)]

/-- The JS comparison `x >= 5` where `x` is a property read: comparisons
against `undefined` or `NaN` are `false`. -/
def jsGe5 (x : Option JSNum) : Bool :=
  match x with
  | some (JSNum.num q) => 5 ≤ q
  | some JSNum.nan => false
  | none => false

/-- The JS increment `x++` applied to a property read: incrementing
`undefined` or `NaN` yields `NaN`. -/
def jsIncr (x : Option JSNum) : JSNum :=
  match x with
  | some (JSNum.num q) => JSNum.num (q + 1)
  | _ => JSNum.nan

/-- A vehicle entry of `PlayerProgress.vehicles`.  The default vehicle has
no `unlockLevel` property (`none`). Rendering-only fields (color) are
omitted. -/
structure Vehicle where
  id : String
  vname : String
  unlocked : Bool
  unlockLevel : Option ℕ
  speedMult : ℚ
  handlingMult : ℚ
deriving DecidableEq

/-- The unlock re-evaluation done in `levelUp`/`load`:
`if (vehicle.unlockLevel && this.level >= vehicle.unlockLevel)
vehicle.unlocked = true`. A JS `unlockLevel` of `0` would be falsy, hence
the `0 < ul` conjunct. -/
def unlockVehicle (level : ℕ) (v : Vehicle) : Vehicle :=
  match v.unlockLevel with
  | some ul => if 0 < ul ∧ ul ≤ level then { v with unlocked := true } else v
  | none => v

/-- The persistent player-progress state (`class PlayerProgress`),
restricted to the simulation-relevant fields. -/
structure Progress where
  level : ℕ
  xp : ℤ
  skillPoints : ℤ
  skills : SkillObj
  vehicles : List Vehicle
  currentVehicle : String
deriving DecidableEq

/-- The `PlayerProgress` constructor state. -/
def initialProgress : Progress :=
  { level := 1
    xp := 0
    skillPoints := 0
    skills := [("speed", JSNum.num 0), ("xpBoost", JSNum.num 0), ("handling", JSNum.num 0)]
    vehicles :=
      [ { id := "basic", vname := "Basic Car", unlocked := true, unlockLevel := none,
          speedMult := 1, handlingMult := 1 },
        { id := "sports", vname := "Sports Car", unlocked := false, unlockLevel := some 5,
          speedMult := 13/10, handlingMult := 12/10 },
        { id := "super", vname := "Super Car", unlocked := false, unlockLevel := some 10,
          speedMult := 3/2, handlingMult := 14/10 },
        { id := "hyper", vname := "Hyper Car", unlocked := false, unlockLevel := some 20,
          speedMult := 2, handlingMult := 18/10 } ]
    currentVehicle := "basic" }

/-- JS `getXPForNextLevel()`: `Math.floor(100 * Math.pow(1.5, this.level - 1))`. -/
def xpNeeded (level : ℕ) : ℤ :=
  ⌊(100 : ℚ) * (3/2) ^ (level - 1)⌋

theorem find?_setEntry_self {α : Type} (skills : List (String × α)) (name : String) (v : α) :
    (skills.map (fun p => if p.1 == name then (p.1, v) else p)).find?
        (fun p => p.1 == name)
      = (skills.find? (fun p => p.1 == name)).map (fun p => (p.1, v)) := by
  induction skills with
  | nil => rfl
  | cons hd tl ih =>
    rw [List.map_cons]
    by_cases hh : (hd.1 == name) = true
    · rw [if_pos hh]
      rw [List.find?_cons_of_pos _ (by simpa using hh),
        List.find?_cons_of_pos _ (by simpa using hh)]
      rfl
    · rw [if_neg hh]
      rw [List.find?_cons_of_neg _ (by simpa using hh),
        List.find?_cons_of_neg _ (by simpa using hh)]
      exact ih

theorem find?_setEntry_other {α : Type} (skills : List (String × α)) (name other : String)
    (v : α) (h : other ≠ name) :
    (skills.map (fun p => if p.1 == name then (p.1, v) else p)).find?
        (fun p => p.1 == other)
      = skills.find? (fun p => p.1 == other) := by
  induction skills with
  | nil => rfl
  | cons hd tl ih =>
    rw [List.map_cons]
    by_cases hn : (hd.1 == name) = true
    · have ho : ¬ ((hd.1 == other) = true) := by
        simp only [beq_iff_eq] at hn ⊢
        rw [hn]
        exact fun e => h e.symm
      rw [if_pos hn]
      rw [List.find?_cons_of_neg _ (by simpa using ho),
        List.find?_cons_of_neg _ (by simpa using ho)]
      exact ih
    · rw [if_neg hn]
      by_cases ho : (hd.1 == other) = true
      · rw [List.find?_cons_of_pos _ (by simpa using ho),
          List.find?_cons_of_pos _ (by simpa using ho)]
      · rw [List.find?_cons_of_neg _ (by simpa using ho),
          List.find?_cons_of_neg _ (by simpa using ho)]
        exact ih

theorem skillGet_skillSet_self (skills : SkillObj) (name : String) (v : JSNum) :
    skillGet (skillSet skills name v) name = some v := by
  unfold skillGet skillSet
  by_cases h : (skills.find? (fun p => p.1 == name)).isSome
  · rw [if_pos h, find?_setEntry_self]
    obtain ⟨p, hp⟩ := Option.isSome_iff_exists.mp h
    simp [hp]
  · rw [if_neg h, List.find?_append]
    rw [Option.not_isSome_iff_eq_none] at h
    simp [h, List.find?]

theorem skillGet_skillSet_other (skills : SkillObj) (name other : String) (v : JSNum)
    (h : other ≠ name) :
    skillGet (skillSet skills name v) other = skillGet skills other := by
  unfold skillGet skillSet
  by_cases hs : (skills.find? (fun p => p.1 == name)).isSome
  · rw [if_pos hs, find?_setEntry_other skills name other v h]
  · rw [if_neg hs, List.find?_append]
    have ho : (name == other) = false := by
      simp only [beq_eq_false_iff_ne, ne_eq]
      exact fun e => h e.symm
    simp [List.find?, ho]

/-- JS `levelUp()`: subtract the current level's threshold from xp, increment
level and skillPoints, then re-run the vehicle-unlock check with the new
level. -/
def levelUp (p : Progress) : Progress :=
  { p with
    xp := p.xp - xpNeeded p.level
    level := p.level + 1
    skillPoints := p.skillPoints + 1
    vehicles := p.vehicles.map (unlockVehicle (p.level + 1)) }

/-- JS `addXP(amount)`: add to xp, then a single `if` (not a loop) triggers at
most one `levelUp`; returns whether a level-up occurred.  (`this.xp +=
amount` does not change the level, so the threshold compared against is
`xpNeeded p.level`.) -/
def addXP (p : Progress) (amount : ℤ) : Progress × Bool :=
  if xpNeeded p.level ≤ p.xp + amount then (levelUp { p with xp := p.xp + amount }, true)
  else ({ p with xp := p.xp + amount }, false)

/-- JS `upgradeSkill(skillName)`: rejected when out of skill points or when
`this.skills[skillName] >= 5`; otherwise `this.skills[skillName]++` and
`this.skillPoints--`, returning `true`. -/
def upgradeSkill (p : Progress) (name : String) : Progress × Bool :=
  if p.skillPoints ≤ 0 then (p, false)
  else if jsGe5 (skillGet p.skills name) then (p, false)
  else
    ({ p with
        skills := skillSet p.skills name (jsIncr (skillGet p.skills name))
        skillPoints := p.skillPoints - 1 }, true)

/-- The `gameState` values of `GameEngine`. -/
inductive GState where
  | loading : GState
  | menu : GState
  | playing : GState
  | paused : GState
  | gameover : GState
deriving DecidableEq

/-- A 3D position (`THREE.Vector3`), restricted to the coordinates the
simulation reads. -/
structure Vec3 where
  x : ℚ
  y : ℚ
  z : ℚ
deriving DecidableEq

/-- The map `this.activePowerUps`: a `Map` from effect type to expiry timestamp
(`Date.now() + duration`), modelled as an association list in insertion
order. -/
abbrev Effects := List (String × ℤ)

/-- The read `Map.get`, as used on `activePowerUps`. -/
def effGet (eff : Effects) (k : String) : Option ℤ :=
  (eff.find? (fun p => p.1 == k)).map (fun p => p.2)

/-- The test `this.activePowerUps.has(k) && this.activePowerUps.get(k) > Date.now()`. -/
def effActive (eff : Effects) (k : String) (now : ℤ) : Bool :=
  match effGet eff k with
  | some e => now < e
  | none => false

/-- The removal `Map.delete`. -/
def effDelete (eff : Effects) (k : String) : Effects :=
  eff.filter (fun p => ¬ p.1 == k)

/-- The write `Map.set`: overwrite in place when the key is present, else append. -/
def effSet (eff : Effects) (k : String) (v : ℤ) : Effects :=
  if (eff.find? (fun p => p.1 == k)).isSome then
    eff.map (fun p => if p.1 == k then (p.1, v) else p)
  else
    eff ++ [(k, v)]

/-- The constant `this.baseSpeed = 50` (GameEngine constructor). -/
def baseSpeed : ℚ := 50

/-- The constant `this.maxSpeed = 200` (GameEngine constructor). -/
def maxSpeed : ℚ := 200

/-- A power-up entity: position plus `userData.type`.  Visual-only fields
(rotation speed, bob offset, glow) are omitted. -/
structure PowerUp where
  x : ℚ
  y : ℚ
  z : ℚ
  ptype : String
deriving DecidableEq

/-- The per-run session state of `GameEngine`, restricted to the fields the
state machine and the update loop mutate.  Rendering, audio, DOM and
weather state are omitted. -/
structure Session where
  gameState : GState
  currentMode : String
  score : ℤ
  distance : ℚ
  speed : ℚ
  timeElapsed : ℚ
  obstacleSpawnTimer : ℚ
  playerLane : ℤ
  playerPos : Vec3
  obstacles : List Vec3
  powerUps : List PowerUp
  activePowerUps : Effects
deriving DecidableEq

/-- JS `startGame(mode)`: unconditionally enters `playing` and resets the
per-run fields (score, distance, speed to base, timers, lane, entity
lists, active effects, player position). -/
def startGame (s : Session) (mode : String) : Session :=
  { s with
    currentMode := mode
    gameState := GState.playing
    score := 0
    distance := 0
    speed := baseSpeed
    timeElapsed := 0
    obstacleSpawnTimer := 0
    playerLane := 0
    obstacles := []
    powerUps := []
    activePowerUps := []
    playerPos := { x := 0, y := 1, z := 20 } }

/-- JS `pauseGame()`: `if (this.gameState !== 'playing') return;` then enter
`paused`. -/
def pauseGame (s : Session) : Session :=
  if s.gameState ≠ GState.playing then s else { s with gameState := GState.paused }

/-- JS `resumeGame()`: unconditionally sets `gameState = 'playing'` (no guard
in the code). -/
def resumeGame (s : Session) : Session :=
  { s with gameState := GState.playing }

/-- A session sitting in the main menu, for concrete evaluations. -/
def menuSession : Session :=
  { gameState := GState.menu
    currentMode := "classic"
    score := 0
    distance := 0
    speed := 0
    timeElapsed := 0
    obstacleSpawnTimer := 0
    playerLane := 0
    playerPos := { x := 0, y := 1, z := 20 }
    obstacles := []
    powerUps := []
    activePowerUps := [] }

/-- The power-up multiplier block of `updateGame`: start at 1, overwrite
with 1.5 while a `speed` effect is active, then overwrite with 0.5 while a
`slowmo` effect is active (sequential assignments, so `slowmo` wins). -/
def powerUpSpeedMultiplier (eff : Effects) (now : ℤ) : ℚ :=
  let m : ℚ := 1
  let m : ℚ := if effActive eff "speed" now then 3/2 else m
  let m : ℚ := if effActive eff "slowmo" now then 1/2 else m
  m

/-- The speed update of `updateGame`:
`min(baseSpeed * (1 + timeElapsed/60) * (1 + skills.speed*0.1) *
powerUpSpeedMultiplier, maxSpeed)`. -/
def computeSpeed (timeElapsed : ℚ) (skillSpeed : ℚ) (eff : Effects) (now : ℤ) : ℚ :=
  min (baseSpeed * (1 + timeElapsed / 60) * (1 + skillSpeed * (1/10))
    * powerUpSpeedMultiplier eff now) maxSpeed

/-- The statement `const delta = 1 / 60;` — the fixed timestep of `animate`. -/
def fixedDelta : ℚ := 1/60

/-- The per-tick continuous score term of `updateGame`:
`this.score += Math.floor(this.speed * delta * 0.1)`. -/
def scoreTickIncrement (speed delta : ℚ) : ℤ :=
  ⌊speed * delta * (1/10)⌋

/-- Result of the obstacle-update loop of `updateGame`: the effects map
and score after the loop, whether `gameOver()` was invoked (which makes
`updateGame` return immediately), and the surviving obstacle list. -/
structure ObsOutcome where
  effects : Effects
  score : ℤ
  ended : Bool
  obstacles : List Vec3
deriving DecidableEq

/-- The obstacle loop of `updateGame` (game.js lines 1673-1713), over the
obstacles in traversal order (the JS loop walks the array from the end;
the list models that traversal order).  Per obstacle: advance z by
`speed*delta`; if `z > 30` remove it and add 10 to the score; else if
`|player.x-obstacle.x| < 3` and `|player.z-obstacle.z| < 4` then either a
live shield absorbs the hit (shield effect deleted, obstacle removed) or
`gameOver()` fires and the loop returns with the remaining obstacles
untouched.  Particle and shield-mesh effects are visual only and omitted. -/
def runObstacles (pl : Vec3) (speed delta : ℚ) (now : ℤ) (eff : Effects)
    (score : ℤ) : List Vec3 → ObsOutcome
  | [] => { effects := eff, score := score, ended := false, obstacles := [] }
  | o :: rest =>
    let z := o.z + speed * delta
    if 30 < z then
      runObstacles pl speed delta now eff (score + 10) rest
    else if |pl.x - o.x| < 3 ∧ |pl.z - z| < 4 then
      if effActive eff "shield" now then
        runObstacles pl speed delta now (effDelete eff "shield") score rest
      else
        { effects := eff, score := score, ended := true,
          obstacles := { o with z := z } :: rest }
    else
      let r := runObstacles pl speed delta now eff score rest
      { r with obstacles := { o with z := z } :: r.obstacles }

/-- The `collectPowerUp` switch (game.js lines 988-1044): timed effects get
expiry `Date.now() + duration` with durations speed 5000, shield 3000,
slowmo 4000, magnet 6000; `score` is an instant +500.  Notifications,
sounds and particles are omitted. -/
def collectEffect (eff : Effects) (score : ℤ) (ptype : String) (now : ℤ) :
    Effects × ℤ :=
  if ptype == "speed" then (effSet eff "speed" (now + 5000), score)
  else if ptype == "shield" then (effSet eff "shield" (now + 3000), score)
  else if ptype == "score" then (eff, score + 500)
  else if ptype == "slowmo" then (effSet eff "slowmo" (now + 4000), score)
  else if ptype == "magnet" then (effSet eff "magnet" (now + 6000), score)
  else (eff, score)

/-- The power-up loop of `updateGame` (game.js lines 1716-1754):
advance z; cull past the player (`z > 30`, no score); magnet pull toward
the player by 0.2 along the normalised direction when the planar distance
is in (1, 20); collect on `|dx| < 2` and `|dz| < 3`.  `Math.sqrt` is
passed in as `sqrtFn` (its value is irrelevant to the claims proved
here); the bob/rotation animation only touches the y coordinate and
rendering state and is omitted. -/
def runPowerUps (sqrtFn : ℚ → ℚ) (pl : Vec3) (speed delta : ℚ) (now : ℤ)
    (eff : Effects) (score : ℤ) : List PowerUp → Effects × ℤ × List PowerUp
  | [] => (eff, score, [])
  | p :: rest =>
    let z := p.z + speed * delta
    if 30 < z then
      runPowerUps sqrtFn pl speed delta now eff score rest
    else
      let pos :=
        if effActive eff "magnet" now then
          let diffX := pl.x - p.x
          let diffZ := pl.z - z
          let dist := sqrtFn (diffX * diffX + diffZ * diffZ)
          if dist < 20 ∧ 1 < dist then
            (p.x + diffX / dist * (2/10), z + diffZ / dist * (2/10))
          else (p.x, z)
        else (p.x, z)
      if |pl.x - pos.1| < 2 ∧ |pl.z - pos.2| < 3 then
        let es := collectEffect eff score p.ptype now
        runPowerUps sqrtFn pl speed delta now es.1 es.2 rest
      else
        let r := runPowerUps sqrtFn pl speed delta now eff score rest
        (r.1, r.2.1, { p with x := pos.1, z := pos.2 } :: r.2.2)

/-- Combined result of the entity-update part of a tick. -/
structure TickOutcome where
  effects : Effects
  score : ℤ
  ended : Bool
  obstacles : List Vec3
  powerUps : List PowerUp
deriving DecidableEq

/-- The entity-update part of one `updateGame` tick: the obstacle loop
runs first; when it invoked `gameOver()` the function returns at once
(game.js line 1710), so the power-up loop never runs that tick; otherwise
the power-up loop follows. -/
def tickEntities (sqrtFn : ℚ → ℚ) (pl : Vec3) (speed delta : ℚ) (now : ℤ)
    (eff : Effects) (score : ℤ) (obstacles : List Vec3)
    (powerUps : List PowerUp) : TickOutcome :=
  let r := runObstacles pl speed delta now eff score obstacles
  if r.ended then
    { effects := r.effects, score := r.score, ended := true,
      obstacles := r.obstacles, powerUps := powerUps }
  else
    let q := runPowerUps sqrtFn pl speed delta now r.effects r.score powerUps
    { effects := q.1, score := q.2.1, ended := false,
      obstacles := r.obstacles, powerUps := q.2.2 }

theorem effGet_effDelete (eff : Effects) (k : String) :
    effGet (effDelete eff k) k = none := by
  unfold effGet effDelete
  rw [Option.map_eq_none', List.find?_eq_none]
  intro x hx
  have := List.of_mem_filter hx
  simp only [Bool.not_eq_true', decide_eq_true_eq] at this ⊢
  simp [this]

theorem effActive_effDelete (eff : Effects) (k : String) (now : ℤ) :
    effActive (effDelete eff k) k now = false := by
  unfold effActive
  rw [effGet_effDelete]

/-- Claim C1 as stated is false on the code: `addXP` runs a single `if`,
not a loop, so an amount spanning two thresholds from the initial state
(level 1, xp 0, thresholds 100 then 150, amount 250) produces exactly one
level-up and leaves `xp = 150 = xpNeeded 2`, violating the invariant
`xp < xpRequiredForNextLevel(level)` and falling short of the claimed
two level-ups. -/
theorem addXP_overflow_counterexample :
    (addXP initialProgress 250).1.level = 2 ∧
    (addXP initialProgress 250).1.xp = 150 ∧
    xpNeeded 2 = 150 ∧
    ¬ ((addXP initialProgress 250).1.xp
        < xpNeeded (addXP initialProgress 250).1.level) := by
  have key : addXP initialProgress 250
      = (levelUp { initialProgress with xp := initialProgress.xp + 250 }, true) := by
    unfold addXP
    rw [if_pos (by norm_num [initialProgress, xpNeeded])]
  have hl : (addXP initialProgress 250).1.level = 2 := by
    rw [key]
    norm_num [levelUp, initialProgress]
  have hxp : (addXP initialProgress 250).1.xp = 150 := by
    rw [key]
    norm_num [levelUp, initialProgress, xpNeeded]
  refine ⟨hl, hxp, by norm_num [xpNeeded], ?_⟩
  rw [hxp, hl]
  norm_num [xpNeeded]

/-- Claim C1 (amended): `addXP(amount)` adds `amount` to xp and then
performs at most one level-up: if the new xp reaches the current level's
threshold, the threshold is subtracted, level and skillPoints are each
incremented exactly once, vehicle unlocks are re-evaluated, and `true` is
returned; otherwise only xp changes and `false` is returned.  The
invariant `xp < xpNeeded level` is not restored when the amount spans
more than one threshold. -/
theorem addXP_spec (p : Progress) (amount : ℤ) :
    ((addXP p amount).2 = true ↔ xpNeeded p.level ≤ p.xp + amount) ∧
    (xpNeeded p.level ≤ p.xp + amount →
      (addXP p amount).1.level = p.level + 1 ∧
      (addXP p amount).1.xp = p.xp + amount - xpNeeded p.level ∧
      (addXP p amount).1.skillPoints = p.skillPoints + 1 ∧
      (addXP p amount).1.vehicles = p.vehicles.map (unlockVehicle (p.level + 1)) ∧
      (addXP p amount).1.skills = p.skills) ∧
    (¬ xpNeeded p.level ≤ p.xp + amount →
      (addXP p amount).1 = { p with xp := p.xp + amount } ∧
      (addXP p amount).2 = false) := by
  unfold addXP
  by_cases h : xpNeeded p.level ≤ p.xp + amount
  · simp [h, levelUp]
  · simp [h]

/-- Witness for `addXP_spec` at the initial progress with amount 250. -/
theorem addXP_spec_witness :
    xpNeeded initialProgress.level ≤ initialProgress.xp + 250 ∧
    ((addXP initialProgress 250).1.level = initialProgress.level + 1 ∧
      (addXP initialProgress 250).1.xp
        = initialProgress.xp + 250 - xpNeeded initialProgress.level ∧
      (addXP initialProgress 250).1.skillPoints = initialProgress.skillPoints + 1 ∧
      (addXP initialProgress 250).1.vehicles
        = initialProgress.vehicles.map (unlockVehicle (initialProgress.level + 1)) ∧
      (addXP initialProgress 250).1.skills = initialProgress.skills) :=
  ⟨by norm_num [xpNeeded, initialProgress],
    (addXP_spec initialProgress 250).2.1 (by norm_num [xpNeeded, initialProgress])⟩

/-- Claim C8: for a valid skill name whose current value is the number q,
`upgradeSkill` returns false and leaves the whole state unchanged when
`skillPoints ≤ 0` or `q ≥ 5`; otherwise it decrements skillPoints by 1,
increments the skill to `q + 1`, leaves level, xp and the other skills
unchanged, and returns true. -/
theorem upgradeSkill_spec (p : Progress) (name : String) (q : ℚ)
    (_hname : name = "speed" ∨ name = "xpBoost" ∨ name = "handling")
    (hq : skillGet p.skills name = some (JSNum.num q)) :
    ((p.skillPoints ≤ 0 ∨ 5 ≤ q) → upgradeSkill p name = (p, false)) ∧
    (0 < p.skillPoints → q < 5 →
      (upgradeSkill p name).2 = true ∧
      (upgradeSkill p name).1.skillPoints = p.skillPoints - 1 ∧
      skillGet (upgradeSkill p name).1.skills name = some (JSNum.num (q + 1)) ∧
      (upgradeSkill p name).1.level = p.level ∧
      (upgradeSkill p name).1.xp = p.xp ∧
      ∀ other, other ≠ name →
        skillGet (upgradeSkill p name).1.skills other = skillGet p.skills other) := by
  constructor
  · rintro (hsp | hge)
    · unfold upgradeSkill
      rw [if_pos hsp]
    · unfold upgradeSkill
      by_cases hsp : p.skillPoints ≤ 0
      · rw [if_pos hsp]
      · rw [if_neg hsp, if_pos]
        rw [hq]
        simpa [jsGe5] using hge
  · intro hsp hlt
    have hng : ¬ (jsGe5 (skillGet p.skills name) = true) := by
      rw [hq]
      simpa [jsGe5] using not_le.mpr hlt
    have hres : upgradeSkill p name
        = ({ p with
              skills := skillSet p.skills name (jsIncr (skillGet p.skills name))
              skillPoints := p.skillPoints - 1 }, true) := by
      unfold upgradeSkill
      rw [if_neg (by omega), if_neg hng]
    rw [hres, hq]
    refine ⟨rfl, rfl, ?_, rfl, rfl, ?_⟩
    · rw [skillGet_skillSet_self]
      rfl
    · intro other hother
      exact skillGet_skillSet_other p.skills name other _ hother

/-- Witness for `upgradeSkill_spec`: one skill point, skill `speed` at 0. -/
theorem upgradeSkill_spec_witness :
    skillGet initialProgress.skills "speed" = some (JSNum.num 0) ∧
    (0 : ℤ) < 1 ∧ (0 : ℚ) < 5 ∧
    ((upgradeSkill { initialProgress with skillPoints := 1 } "speed").2 = true ∧
      (upgradeSkill { initialProgress with skillPoints := 1 } "speed").1.skillPoints = 1 - 1 ∧
      skillGet (upgradeSkill { initialProgress with skillPoints := 1 } "speed").1.skills "speed"
        = some (JSNum.num (0 + 1)) ∧
      (upgradeSkill { initialProgress with skillPoints := 1 } "speed").1.level
        = ({ initialProgress with skillPoints := (1 : ℤ) } : Progress).level ∧
      (upgradeSkill { initialProgress with skillPoints := 1 } "speed").1.xp
        = ({ initialProgress with skillPoints := (1 : ℤ) } : Progress).xp ∧
      ∀ other, other ≠ "speed" →
        skillGet (upgradeSkill { initialProgress with skillPoints := 1 } "speed").1.skills other
          = skillGet ({ initialProgress with skillPoints := (1 : ℤ) } : Progress).skills other) :=
  ⟨by simp [initialProgress, skillGet, List.find?], by norm_num, by norm_num,
    (upgradeSkill_spec { initialProgress with skillPoints := 1 } "speed" 0
        (Or.inl rfl)
        (by simp [initialProgress, skillGet, List.find?])).2
      (by norm_num) (by norm_num)⟩

/-- Claim C10: calling `upgradeSkill` with a name outside the three real
skills while a skill point is available is not rejected: the JS comparison
`undefined >= 5` is false, so the guard passes, `skills[name]++` turns the
absent property into `NaN`, a skill point is consumed, and `true` is
returned. -/
theorem upgradeSkill_unknown_name :
    skillGet initialProgress.skills "flight" = none ∧
    (upgradeSkill { initialProgress with skillPoints := 3 } "flight").2 = true ∧
    (upgradeSkill { initialProgress with skillPoints := 3 } "flight").1.skillPoints = 2 ∧
    skillGet (upgradeSkill { initialProgress with skillPoints := 3 } "flight").1.skills "flight"
      = some JSNum.nan := by
  have hget : skillGet initialProgress.skills "flight" = none := by
    simp [initialProgress, skillGet, List.find?]
  have hres : upgradeSkill { initialProgress with skillPoints := 3 } "flight"
      = ({ ({ initialProgress with skillPoints := 3 } : Progress) with
            skills := skillSet initialProgress.skills "flight"
              (jsIncr (skillGet initialProgress.skills "flight"))
            skillPoints := 3 - 1 }, true) := by
    unfold upgradeSkill
    rw [if_neg (by norm_num), if_neg (by simp [hget, jsGe5])]
  refine ⟨hget, ?_, ?_, ?_⟩
  · rw [hres]
  · rw [hres]
    norm_num
  · rw [hres]
    simp only
    rw [skillGet_skillSet_self]
    simp [hget, jsIncr]

/-- Claim C2: when an obstacle (not yet past the player) collides
(`distX < 3` and `distZ < 4`, measured after the tick's z advance): with a
live shield (expiry > now) the shield effect is consumed, the obstacle is
removed and the loop simply continues on the remaining obstacles (the run
does not end from this collision); without a shield the run ends
immediately — the remaining obstacles are returned untouched and, per the
early return from `updateGame`, the power-up loop does not run that
tick. -/
theorem collision_shield_spec (pl : Vec3) (speed delta : ℚ) (now : ℤ)
    (eff : Effects) (score : ℤ) (o : Vec3) (rest : List Vec3)
    (powerUps : List PowerUp) (sqrtFn : ℚ → ℚ)
    (hpass : ¬ 30 < o.z + speed * delta)
    (hx : |pl.x - o.x| < 3) (hz : |pl.z - (o.z + speed * delta)| < 4) :
    (effActive eff "shield" now = true →
      runObstacles pl speed delta now eff score (o :: rest)
        = runObstacles pl speed delta now (effDelete eff "shield") score rest ∧
      effActive (effDelete eff "shield") "shield" now = false) ∧
    (effActive eff "shield" now = false →
      runObstacles pl speed delta now eff score (o :: rest)
        = { effects := eff, score := score, ended := true,
            obstacles := { o with z := o.z + speed * delta } :: rest } ∧
      tickEntities sqrtFn pl speed delta now eff score (o :: rest) powerUps
        = { effects := eff, score := score, ended := true,
            obstacles := { o with z := o.z + speed * delta } :: rest,
            powerUps := powerUps }) := by
  have hstep : ∀ e : Effects, runObstacles pl speed delta now e score (o :: rest)
      = if effActive e "shield" now then
          runObstacles pl speed delta now (effDelete e "shield") score rest
        else
          { effects := e, score := score, ended := true,
            obstacles := { o with z := o.z + speed * delta } :: rest } := by
    intro e
    show (let z := o.z + speed * delta
      if 30 < z then
        runObstacles pl speed delta now e (score + 10) rest
      else if |pl.x - o.x| < 3 ∧ |pl.z - z| < 4 then
        if effActive e "shield" now then
          runObstacles pl speed delta now (effDelete e "shield") score rest
        else
          { effects := e, score := score, ended := true,
            obstacles := { o with z := z } :: rest }
      else
        let r := runObstacles pl speed delta now e score rest
        { r with obstacles := { o with z := z } :: r.obstacles }) = _
    simp only
    rw [if_neg hpass, if_pos ⟨hx, hz⟩]
  constructor
  · intro hshield
    refine ⟨?_, effActive_effDelete eff "shield" now⟩
    rw [hstep eff, if_pos hshield]
  · intro hnoshield
    have hobs : runObstacles pl speed delta now eff score (o :: rest)
        = { effects := eff, score := score, ended := true,
            obstacles := { o with z := o.z + speed * delta } :: rest } := by
      rw [hstep eff, if_neg (by simp [hnoshield])]
    refine ⟨hobs, ?_⟩
    unfold tickEntities
    rw [hobs]
    simp only [if_pos]

/-- Witness for `collision_shield_spec`: the player at (0,1,20) hits an
obstacle whose z advances to 18 with no shield active. -/
theorem collision_shield_spec_witness :
    ¬ (30 : ℚ) < 17 + 1 * 1 ∧
    |(0 : ℚ) - 0| < 3 ∧
    |(20 : ℚ) - (17 + 1 * 1)| < 4 ∧
    tickEntities (fun q => q) { x := 0, y := 1, z := 20 } 1 1 0 [] 0
        [{ x := 0, y := 0, z := 17 }] [{ x := 0, y := 3, z := -120, ptype := "speed" }]
      = { effects := [], score := 0, ended := true,
          obstacles := [{ x := 0, y := 0, z := 17 + 1 * 1 }],
          powerUps := [{ x := 0, y := 3, z := -120, ptype := "speed" }] } :=
  ⟨by norm_num, by norm_num, by norm_num,
    ((collision_shield_spec { x := 0, y := 1, z := 20 } 1 1 0 [] 0
        { x := 0, y := 0, z := 17 } []
        [{ x := 0, y := 3, z := -120, ptype := "speed" }] (fun q => q)
        (by norm_num) (by norm_num) (by norm_num)).2 rfl).2⟩

/-- Claim C3 as stated is false on the code: `resumeGame` (like
`startGame`) carries no state guard, so invoking it from `menu` changes
the state to `playing` instead of leaving it unchanged. -/
theorem resumeGame_from_menu_counterexample :
    menuSession.gameState = GState.menu ∧
    (resumeGame menuSession).gameState = GState.playing ∧
    (startGame { menuSession with gameState := GState.paused } "classic").gameState
      = GState.playing ∧
    GState.playing ≠ GState.menu ∧ GState.playing ≠ GState.paused := by
  refine ⟨rfl, rfl, rfl, ?_, ?_⟩ <;> decide

/-- Claim C3 (amended): `startGame(mode)` unconditionally transitions to
`playing` from any state and resets score, distance, speed (to baseSpeed),
timers, lane, effects and entities; `pauseGame` moves to `paused` only
from `playing` and leaves the session unchanged otherwise; `resumeGame`
unconditionally transitions to `playing` from any state. -/
theorem session_transitions_spec (s : Session) (mode : String) :
    ((startGame s mode).gameState = GState.playing ∧
      (startGame s mode).currentMode = mode ∧
      (startGame s mode).score = 0 ∧
      (startGame s mode).distance = 0 ∧
      (startGame s mode).speed = baseSpeed ∧
      (startGame s mode).timeElapsed = 0 ∧
      (startGame s mode).obstacleSpawnTimer = 0 ∧
      (startGame s mode).playerLane = 0 ∧
      (startGame s mode).obstacles = [] ∧
      (startGame s mode).powerUps = [] ∧
      (startGame s mode).activePowerUps = []) ∧
    (s.gameState = GState.playing → pauseGame s = { s with gameState := GState.paused }) ∧
    (s.gameState ≠ GState.playing → pauseGame s = s) ∧
    (resumeGame s).gameState = GState.playing := by
  refine ⟨⟨rfl, rfl, rfl, rfl, rfl, rfl, rfl, rfl, rfl, rfl, rfl⟩, ?_, ?_, rfl⟩
  · intro h
    unfold pauseGame
    rw [if_neg (by simp [h])]
  · intro h
    unfold pauseGame
    rw [if_pos h]

/-- Witness for `session_transitions_spec`: the pause guard evaluated both
from a playing session and from the menu session. -/
theorem session_transitions_spec_witness :
    ((startGame menuSession "classic").gameState = GState.playing ∧
      (startGame menuSession "classic").currentMode = "classic" ∧
      (startGame menuSession "classic").score = 0 ∧
      (startGame menuSession "classic").distance = 0 ∧
      (startGame menuSession "classic").speed = baseSpeed ∧
      (startGame menuSession "classic").timeElapsed = 0 ∧
      (startGame menuSession "classic").obstacleSpawnTimer = 0 ∧
      (startGame menuSession "classic").playerLane = 0 ∧
      (startGame menuSession "classic").obstacles = [] ∧
      (startGame menuSession "classic").powerUps = [] ∧
      (startGame menuSession "classic").activePowerUps = []) ∧
    pauseGame { menuSession with gameState := GState.playing }
      = { menuSession with gameState := GState.paused } ∧
    pauseGame menuSession = menuSession ∧
    (resumeGame menuSession).gameState = GState.playing :=
  ⟨(session_transitions_spec menuSession "classic").1,
    (session_transitions_spec { menuSession with gameState := GState.playing } "classic").2.1
      rfl,
    (session_transitions_spec menuSession "classic").2.2.1 (by decide),
    (session_transitions_spec menuSession "classic").2.2.2⟩

/-- Claim C4: each tick the speed is
`min(baseSpeed * (1 + t/60) * (1 + skills.speed*0.1) * M, maxSpeed)` where
`M` is 0.5 whenever `slowmo` is active (even if `speed` is also active,
because the slowmo assignment overwrites the speed multiplier), 1.5 when
only `speed` is active, and 1 otherwise. -/
theorem speed_formula_spec (t sk : ℚ) (eff : Effects) (now : ℤ) :
    computeSpeed t sk eff now
      = min (baseSpeed * (1 + t / 60) * (1 + sk * (1/10)) *
          (if effActive eff "slowmo" now then 1/2
           else if effActive eff "speed" now then 3/2 else 1)) maxSpeed ∧
    (effActive eff "speed" now = true → effActive eff "slowmo" now = true →
      computeSpeed t sk eff now
        = min (baseSpeed * (1 + t / 60) * (1 + sk * (1/10)) * (1/2)) maxSpeed) := by
  constructor
  · unfold computeSpeed powerUpSpeedMultiplier
    by_cases hs : effActive eff "slowmo" now = true
    · simp [hs]
    · simp only [Bool.not_eq_true] at hs
      by_cases hp : effActive eff "speed" now = true
      · simp [hs, hp]
      · simp only [Bool.not_eq_true] at hp
        simp [hs, hp]
  · intro hp hs
    unfold computeSpeed powerUpSpeedMultiplier
    simp [hp, hs]

/-- Witness for `speed_formula_spec`: both effects active at once yield
multiplier 0.5. -/
theorem speed_formula_spec_witness :
    effActive [("speed", 1), ("slowmo", 1)] "speed" 0 = true ∧
    effActive [("speed", 1), ("slowmo", 1)] "slowmo" 0 = true ∧
    computeSpeed 0 0 [("speed", 1), ("slowmo", 1)] 0
      = min (baseSpeed * (1 + 0 / 60) * (1 + 0 * (1/10)) * (1/2)) maxSpeed :=
  ⟨rfl, rfl,
    (speed_formula_spec 0 0 [("speed", 1), ("slowmo", 1)] 0).2 rfl rfl⟩

/-- Claim C9: with the fixed timestep `delta = 1/60` and the speed clamped
to `maxSpeed = 200`, the continuous score term
`Math.floor(speed * delta * 0.1)` is 0 on every tick (200/600 < 1), so
driving alone never increases the score. -/
theorem score_tick_increment_zero (t sk : ℚ) (eff : Effects) (now : ℤ)
    (ht : 0 ≤ t) (hsk : 0 ≤ sk) :
    scoreTickIncrement (computeSpeed t sk eff now) fixedDelta = 0 := by
  have hub : computeSpeed t sk eff now ≤ 200 := by
    unfold computeSpeed maxSpeed
    exact min_le_right _ _
  have hm : (0 : ℚ) ≤ powerUpSpeedMultiplier eff now := by
    unfold powerUpSpeedMultiplier
    by_cases hs : effActive eff "slowmo" now = true
    · simp only [hs, if_true]
      norm_num
    · simp only [Bool.not_eq_true] at hs
      by_cases hp : effActive eff "speed" now = true
      · simp only [hs, hp]
        norm_num
      · simp only [Bool.not_eq_true] at hp
        simp only [hs, hp]
        norm_num
  have hlb : 0 ≤ computeSpeed t sk eff now := by
    unfold computeSpeed
    refine le_min ?_ (by norm_num [maxSpeed])
    have h1 : (0 : ℚ) ≤ baseSpeed := by norm_num [baseSpeed]
    have h2 : (0 : ℚ) ≤ 1 + t / 60 := by positivity
    have h3 : (0 : ℚ) ≤ 1 + sk * (1/10) := by positivity
    positivity
  unfold scoreTickIncrement fixedDelta
  rw [Int.floor_eq_zero_iff, Set.mem_Ico]
  constructor
  · positivity
  · have : computeSpeed t sk eff now * (1/60) * (1/10)
        ≤ 200 * (1/60) * (1/10) := by
      have h60 : (0 : ℚ) < 1/60 := by norm_num
      have h10 : (0 : ℚ) < 1/10 := by norm_num
      nlinarith
    calc computeSpeed t sk eff now * (1/60) * (1/10)
        ≤ 200 * (1/60) * (1/10) := this
      _ < 1 := by norm_num

/-- Witness for `score_tick_increment_zero` at time 0 with no skills or
effects. -/
theorem score_tick_increment_zero_witness :
    (0 : ℚ) ≤ 0 ∧ scoreTickIncrement (computeSpeed 0 0 [] 0) fixedDelta = 0 :=
  ⟨le_refl 0, score_tick_increment_zero 0 0 [] 0 (le_refl 0) (le_refl 0)⟩

/-- The outbound position packet
`{type:'position', x, y, z, lane}` built in `broadcastPlayerPosition`. -/
structure PositionPacket where
  ptype : String
  x : ℚ
  y : ℚ
  z : ℚ
  lane : ℤ
deriving DecidableEq

/-- JS `broadcastPlayerPosition()`: sends nothing unless the peer object
exists and is connected; otherwise serialises exactly
`{type:'position', x, y, z, lane}` from the local player's transform and
lane. -/
def broadcastPlayerPosition (peerConnected : Bool) (pos : Vec3) (lane : ℤ) :
    Option PositionPacket :=
  if peerConnected then
    some { ptype := "position", x := pos.x, y := pos.y, z := pos.z, lane := lane }
  else none

/-- The guard in `animate`: broadcast only while
`connections.length > 0 && gameState === 'playing'`. -/
def animateBroadcast (numConnections : ℕ) (gameState : GState)
    (peerConnected : Bool) (pos : Vec3) (lane : ℤ) : Option PositionPacket :=
  if 0 < numConnections ∧ gameState = GState.playing then
    broadcastPlayerPosition peerConnected pos lane
  else none

/-- An inbound multiplayer message after JSON parsing, as read by
`handleMultiplayerData`. -/
structure InboundPacket where
  ptype : String
  playerId : String
  x : ℚ
  y : ℚ
  z : ℚ
deriving DecidableEq

/-- The object `this.remotePlayers`: a JS object mapping peer identifiers to remote
player meshes, reduced to their positions; association list in property
insertion order. -/
abbrev RemotePlayers := List (String × Vec3)

/-- Object read `this.remotePlayers[playerId]`. -/
def rpGet (rp : RemotePlayers) (pid : String) : Option Vec3 :=
  (rp.find? (fun p => p.1 == pid)).map (fun p => p.2)

/-- JS `createRemotePlayer(playerId)`: adds a new remote-player entry (a box
mesh at the scene default position (0,0,0)). -/
def createRemotePlayer (rp : RemotePlayers) (pid : String) : RemotePlayers :=
  rp ++ [(pid, { x := 0, y := 0, z := 0 })]

/-- JS `handleMultiplayerData(data)`: on a `position` message, create the
remote player on first sight of the identifier, then snap its transform to
`(x, y, z)`; any other message type is ignored. -/
def handleMultiplayerData (rp : RemotePlayers) (d : InboundPacket) : RemotePlayers :=
  if d.ptype == "position" then
    let rp1 := if (rpGet rp d.playerId).isSome then rp else createRemotePlayer rp d.playerId
    rp1.map (fun p => if p.1 == d.playerId then (p.1, { x := d.x, y := d.y, z := d.z }) else p)
  else rp

/-- Claim C5: every outbound packet while playing with a connected peer is
exactly `{type:'position', x, y, z, lane}` with the local transform and
lane (and one is sent exactly under those conditions); every inbound
`position` message leaves the sender's remote-player entry — created on
first sight — at `(x, y, z)`, touching no other peer's entry. -/
theorem multiplayer_sync_spec (n : ℕ) (g : GState) (pc : Bool) (pos : Vec3)
    (lane : ℤ) (rp : RemotePlayers) (d : InboundPacket) :
    (∀ pkt, animateBroadcast n g pc pos lane = some pkt →
      pkt = { ptype := "position", x := pos.x, y := pos.y, z := pos.z, lane := lane } ∧
      0 < n ∧ g = GState.playing ∧ pc = true) ∧
    (0 < n → g = GState.playing → pc = true →
      animateBroadcast n g pc pos lane
        = some { ptype := "position", x := pos.x, y := pos.y, z := pos.z, lane := lane }) ∧
    (d.ptype = "position" →
      rpGet (handleMultiplayerData rp d) d.playerId = some { x := d.x, y := d.y, z := d.z } ∧
      ∀ other, other ≠ d.playerId →
        rpGet (handleMultiplayerData rp d) other = rpGet rp other) := by
  refine ⟨?_, ?_, ?_⟩
  · intro pkt hpkt
    unfold animateBroadcast broadcastPlayerPosition at hpkt
    by_cases hg : 0 < n ∧ g = GState.playing
    · rw [if_pos hg] at hpkt
      by_cases hpc : pc = true
      · rw [if_pos hpc] at hpkt
        exact ⟨(Option.some_injective _ hpkt).symm, hg.1, hg.2, hpc⟩
      · rw [if_neg hpc] at hpkt
        exact absurd hpkt (Option.some_ne_none pkt).symm
    · rw [if_neg hg] at hpkt
      exact absurd hpkt (Option.some_ne_none pkt).symm
  · intro hn hg hpc
    unfold animateBroadcast broadcastPlayerPosition
    rw [if_pos ⟨hn, hg⟩, if_pos hpc]
  · intro hd
    have hd' : (d.ptype == "position") = true := by simp [hd]
    unfold handleMultiplayerData
    rw [if_pos hd']
    by_cases hs : (rpGet rp d.playerId).isSome
    · rw [if_pos hs]
      constructor
      · unfold rpGet at hs ⊢
        rw [find?_setEntry_self]
        have hs' : (rp.find? (fun p => p.1 == d.playerId)).isSome = true := by
          simpa using hs
        obtain ⟨p, hp⟩ := Option.isSome_iff_exists.mp hs'
        simp [hp]
      · intro other hother
        unfold rpGet
        rw [find?_setEntry_other rp d.playerId other _ hother]
    · rw [if_neg hs]
      constructor
      · unfold rpGet createRemotePlayer
        rw [List.map_append, List.find?_append, find?_setEntry_self]
        unfold rpGet at hs
        rw [Option.not_isSome_iff_eq_none, Option.map_eq_none'] at hs
        simp [hs, List.find?]
      · intro other hother
        unfold rpGet createRemotePlayer
        rw [List.map_append, List.find?_append, find?_setEntry_other rp d.playerId other _ hother]
        have ho : (d.playerId == other) = false := by
          simp only [beq_eq_false_iff_ne, ne_eq]
          exact fun e => hother e.symm
        simp [List.find?, ho]

/-- Witness for `multiplayer_sync_spec`: two peers, one already known. -/
theorem multiplayer_sync_spec_witness :
    (0 < 1 ∧ GState.playing = GState.playing ∧ true = true) ∧
    animateBroadcast 1 GState.playing true { x := 5, y := 1, z := 20 } 1
      = some { ptype := "position", x := 5, y := 1, z := 20, lane := 1 } ∧
    ("position" : String) = "position" ∧
    rpGet
        (handleMultiplayerData [("p1", { x := 0, y := 0, z := 0 })]
          { ptype := "position", playerId := "p2", x := 3, y := 1, z := 4 })
        "p2"
      = some { x := 3, y := 1, z := 4 } ∧
    rpGet
        (handleMultiplayerData [("p1", { x := 0, y := 0, z := 0 })]
          { ptype := "position", playerId := "p2", x := 3, y := 1, z := 4 })
        "p1"
      = rpGet [("p1", { x := 0, y := 0, z := 0 })] "p1" :=
  ⟨⟨Nat.one_pos, rfl, rfl⟩,
    (multiplayer_sync_spec 1 GState.playing true { x := 5, y := 1, z := 20 } 1
        [] { ptype := "position", playerId := "p2", x := 3, y := 1, z := 4 }).2.1
      Nat.one_pos rfl rfl,
    rfl,
    ((multiplayer_sync_spec 1 GState.playing true { x := 5, y := 1, z := 20 } 1
        [("p1", { x := 0, y := 0, z := 0 })]
        { ptype := "position", playerId := "p2", x := 3, y := 1, z := 4 }).2.2 rfl).1,
    ((multiplayer_sync_spec 1 GState.playing true { x := 5, y := 1, z := 20 } 1
        [("p1", { x := 0, y := 0, z := 0 })]
        { ptype := "position", playerId := "p2", x := 3, y := 1, z := 4 }).2.2 rfl).2
      "p1" (by decide)⟩

/-- A leaderboard entry as built in `addScore`:
`{score, date, username, isGuest}`. -/
structure ScoreEntry where
  score : ℤ
  date : String
  username : String
  isGuest : Bool
deriving DecidableEq

/-- The sort comparator `(a, b) => b.score - a.score`: `a` may precede `b`
iff `a.score ≥ b.score` (descending); a JS `Array.prototype.sort` is
stable, which `List.mergeSort` models. -/
def scoreLe (a b : ScoreEntry) : Bool := b.score ≤ a.score

/-- JS `PlayerProgress.addScore` on one mode's board: push the new entry,
stable-sort descending by score, keep the first 10 (`slice(0, 10)`). -/
def addScore (board : List ScoreEntry) (e : ScoreEntry) : List ScoreEntry :=
  ((board ++ [e]).mergeSort scoreLe).take 10

theorem scoreLe_trans : ∀ (a b c : ScoreEntry), scoreLe a b → scoreLe b c → scoreLe a c := by
  intro a b c hab hbc
  simp only [scoreLe, decide_eq_true_eq] at hab hbc ⊢
  omega

theorem scoreLe_total : ∀ (a b : ScoreEntry), scoreLe a b || scoreLe b a := by
  intro a b
  simp only [scoreLe, Bool.or_eq_true, decide_eq_true_eq]
  omega

/-- Claim C6: after any `addScore` call the board holds at most 10
entries, sorted descending by score; the sort is stable (any subsequence
of the pushed list already ordered under the comparator — in particular
tied entries in insertion order — survives in that order); and when the
pushed list has 11 entries, exactly the lowest-ranked entry of the sorted
11 is dropped. -/
theorem addScore_leaderboard_spec (board : List ScoreEntry) (e : ScoreEntry) :
    (addScore board e).length ≤ 10 ∧
    (addScore board e).Pairwise (fun a b => b.score ≤ a.score) ∧
    (∀ c : List ScoreEntry, c.Pairwise (fun a b => scoreLe a b) →
      c.Sublist (board ++ [e]) → c.Sublist ((board ++ [e]).mergeSort scoreLe)) ∧
    ((board ++ [e]).length = 11 →
      ∃ d, (board ++ [e]).mergeSort scoreLe = addScore board e ++ [d] ∧
        ∀ x ∈ addScore board e, d.score ≤ x.score) := by
  have hsorted : ((board ++ [e]).mergeSort scoreLe).Pairwise (fun a b => scoreLe a b) :=
    List.sorted_mergeSort scoreLe_trans scoreLe_total (board ++ [e])
  refine ⟨?_, ?_, ?_, ?_⟩
  · exact List.length_take_le 10 _
  · exact ((hsorted.sublist (List.take_sublist 10 _)).imp
      (fun h => by simpa [scoreLe] using h))
  · intro c hc hsub
    exact List.sublist_mergeSort scoreLe_trans scoreLe_total hc hsub
  · intro hlen
    have hlen' : ((board ++ [e]).mergeSort scoreLe).length = 11 := by
      rw [List.length_mergeSort]
      exact hlen
    have hsplit : ((board ++ [e]).mergeSort scoreLe).take 10
          ++ ((board ++ [e]).mergeSort scoreLe).drop 10
        = (board ++ [e]).mergeSort scoreLe :=
      List.take_append_drop 10 _
    have hdrop : (((board ++ [e]).mergeSort scoreLe).drop 10).length = 1 := by
      rw [List.length_drop, hlen']
    obtain ⟨d, hd⟩ := List.length_eq_one.mp hdrop
    refine ⟨d, ?_, ?_⟩
    · unfold addScore
      conv_lhs => rw [← hsplit, hd]
    · intro x hx
      have hpw : (((board ++ [e]).mergeSort scoreLe).take 10
            ++ [d]).Pairwise (fun a b => scoreLe a b) := by
        rw [← hd, hsplit]
        exact hsorted

      have := (List.pairwise_append.mp hpw).2.2 x hx d (List.mem_singleton_self d)
      simpa [scoreLe] using this

/-- A concrete full board of 10 entries, sorted descending. -/
def witBoard : List ScoreEntry :=
  [⟨100, "d1", "u", false⟩, ⟨90, "d2", "u", false⟩, ⟨80, "d3", "u", false⟩,
    ⟨70, "d4", "u", false⟩, ⟨60, "d5", "u", false⟩, ⟨50, "d6", "u", false⟩,
    ⟨40, "d7", "u", false⟩, ⟨30, "d8", "u", false⟩, ⟨20, "d9", "u", false⟩,
    ⟨10, "d10", "u", false⟩]

/-- A concrete 11th entry with the lowest score. -/
def witEntry : ScoreEntry := ⟨5, "d11", "u", false⟩

/-- Witness for `addScore_leaderboard_spec`: a full 10-entry board plus an
11th lowest entry. -/
theorem addScore_leaderboard_spec_witness :
    ((witBoard ++ [witEntry]).Pairwise (fun a b => scoreLe a b) ∧
      (witBoard ++ [witEntry]).Sublist (witBoard ++ [witEntry])) ∧
    (witBoard ++ [witEntry]).length = 11 ∧
    (addScore witBoard witEntry).length ≤ 10 ∧
    (addScore witBoard witEntry).Pairwise (fun a b => b.score ≤ a.score) ∧
    (witBoard ++ [witEntry]).Sublist ((witBoard ++ [witEntry]).mergeSort scoreLe) ∧
    (∃ d, (witBoard ++ [witEntry]).mergeSort scoreLe = addScore witBoard witEntry ++ [d] ∧
      ∀ x ∈ addScore witBoard witEntry, d.score ≤ x.score) :=
  ⟨⟨by decide, List.Sublist.refl _⟩, by decide,
    (addScore_leaderboard_spec witBoard witEntry).1,
    (addScore_leaderboard_spec witBoard witEntry).2.1,
    (addScore_leaderboard_spec witBoard witEntry).2.2.1 (witBoard ++ [witEntry])
      (by decide) (List.Sublist.refl _),
    (addScore_leaderboard_spec witBoard witEntry).2.2.2 (by decide)⟩

/-- The factor `handlingFactor = 1 + skills.handling * 0.2` (updateGame). -/
def handlingFactor (skillHandling : ℚ) : ℚ := 1 + skillHandling * (2/10)

/-- One lane-position tick:
`this.player.position.x += (targetX - x) * 0.1 * handling`. -/
def laneStep (handling targetX x : ℚ) : ℚ := x + (targetX - x) * (1/10) * handling

/-- The lane position after n ticks from `x`. -/
def laneIter (handling targetX x : ℚ) : ℕ → ℚ
  | 0 => x
  | n + 1 => laneStep handling targetX (laneIter handling targetX x n)

theorem laneIter_gap (n : ℕ) : 10 - laneIter 1 10 0 n = 10 * (9/10) ^ n := by
  induction n with
  | zero => norm_num [laneIter]
  | succ n ih =>
    have hn : laneIter 1 10 0 n = 10 - 10 * (9/10) ^ n := by linarith
    show 10 - laneStep 1 10 (laneIter 1 10 0 n) = 10 * (9/10) ^ (n + 1)
    rw [laneStep, hn, pow_succ]
    ring

/-- Claim C7: with handling skill 0 (factor 1.0), starting at offset 0
with target 10, the offset never equals 10 after any finite number of
ticks, and after 50 ticks it is within 1% of 10. -/
theorem lane_convergence_spec :
    (∀ n : ℕ, laneIter (handlingFactor 0) 10 0 n ≠ 10) ∧
    |laneIter (handlingFactor 0) 10 0 50 - 10| < (1/100) * 10 := by
  have hf : handlingFactor 0 = 1 := by norm_num [handlingFactor]
  rw [hf]
  constructor
  · intro n hcontra
    have hgap := laneIter_gap n
    rw [hcontra] at hgap
    have hpos : (0 : ℚ) < 10 * (9/10) ^ n := by positivity
    rw [← hgap] at hpos
    norm_num at hpos
  · have hgap := laneIter_gap 50
    have hpos : (0 : ℚ) < 10 * (9/10) ^ 50 := by positivity
    have hsmall : (10 : ℚ) * (9/10) ^ 50 < (1/100) * 10 := by
      norm_num
    rw [abs_sub_comm, abs_of_pos (by linarith [hgap, hpos] : (0:ℚ) < 10 - laneIter 1 10 0 50)]
    linarith [hgap]

end URD
